import Mathlib

/-
  Shallow embedding of the caching reverse proxy in `src/main.go`.

  Modelling choices:
  * Go `http.Header` (`map[string][]string`) is modelled as a multimap
    `String → List String`: the order of the values of one key is semantic
    (Go preserves it), the iteration order over distinct keys is not (Go map
    ranges are unordered).  All header keys used by the program
    ("X-Cache", "X-Forwarded-For") are already in canonical MIME form, so
    key canonicalisation is the identity on everything the program touches.
  * `time.Time` instants and `time.Duration` values are both `Nat`;
    `t.Add(d)` is `t + d` and `x.After(y)` is `y < x` (strict).
    `time.Now()` becomes an explicit `now` parameter threaded to the
    operation that calls it in Go.
  * A response body (`io.ReadCloser`) is a `BodyStream`: the outcome of
    `io.ReadAll` and the outcome of `Close`.  `io.NopCloser(bytes.NewReader b)`
    is the stream that yields exactly `b` and closes without error.
  * The `map[string]cacheData` guarded by the RWMutex is a function
    `String → Option cacheData`; Go map assignment is pointwise update
    (`mapStore`).  Locks only serialise access and are not modelled: every
    operation is a pure function of the state it starts from.
  * The forwarder (`httputil.ReverseProxy`) is modelled by `serveHTTP`:
    the Director rewrites scheme/host and drops "X-Forwarded-For", the
    upstream exchange is an oracle `Request → UpstreamResp`, the transport
    sets the response's `Request` field to the outgoing request, the
    `ModifyResponse` hook runs before the response is relayed, and a hook
    error yields a 502 instead of the relay.  `rp.ModifyResponse` is a
    mutable field of the shared proxy, so whether the capture hook is
    installed is part of the proxy state (`ProxyState.hookInstalled`).
-/

namespace CacheProxy

/-- Go `http.Header` as a multimap: the list of values stored under a key. -/
def Header : Type := String → List String

def emptyHeader : Header := fun _ => []

/-- `h.Add(k, v)`: appends `v` to the values of `k`. -/
def headerAdd (h : Header) (k v : String) : Header :=
  fun q => if q = k then h k ++ [v] else h q

/-- `h.Set(k, v)`: replaces all values of `k` by the single value `v`. -/
def headerSet (h : Header) (k v : String) : Header :=
  fun q => if q = k then [v] else h q

/-- `h.Del(k)`: removes every value of `k`. -/
def headerDel (h : Header) (k : String) : Header :=
  fun q => if q = k then [] else h q

/-- `h.Clone()`: a value copy; in the pure model the multimap itself. -/
def headerClone (h : Header) : Header := h

/-- The double loop in `writeToResponseCacheHit` / `copyHeader`:
`for k, vv := range src { for _, v := range vv { dst.Add(k, v) } }`,
which appends the values of `src` after those of `dst`, key by key. -/
def copyHeader (dst src : Header) : Header :=
  fun k => dst k ++ src k

def XCacheMiss : String := "MISS"

def XCacheHit : String := "HIT"

/-- An `io.ReadCloser` response body: what `io.ReadAll` yields and whether
`Close` fails. -/
structure BodyStream where
  readAll : Except String (List Nat)
  closeErr : Option String

/-- `io.NopCloser(bytes.NewReader b)`: replays exactly `b`, closes cleanly. -/
def nopCloser (b : List Nat) : BodyStream :=
  { readAll := Except.ok b, closeErr := none }

/-- The fields of `*http.Request` the program reads or writes. -/
structure Request where
  method : String
  requestURI : String
  scheme : String
  host : String
  header : Header

/-- The fields of `*http.Response` the program reads or writes
(`res.Request` is set by the transport to the outgoing request). -/
structure HttpResponse where
  request : Request
  status : Nat
  header : Header
  body : BodyStream

/-- `cacheData` from `src/main.go`: one cached response. -/
structure cacheData where
  header : Header
  body : List Nat
  age : Nat
  status : Nat

/-- The `map[string]cacheData` inside `cache`. -/
def CacheMap : Type := String → Option cacheData

def emptyCacheMap : CacheMap := fun _ => none

/-- Go map assignment `c.data[key] = v`: pointwise update. -/
def mapStore (m : CacheMap) (k : String) (v : cacheData) : CacheMap :=
  fun q => if q = k then some v else m q

/-- `isCacheStale(a, ttl)` = `time.Now().After(a.Add(ttl))`, with
`time.Now()` made the explicit first argument: stale iff `a + ttl < now`. -/
def isCacheStale (now a ttl : Nat) : Bool :=
  decide (a + ttl < now)

/-- `(c *cache) cleanup(ttl)`: one locked pass deleting every entry `d`
with `isCacheStale(d.age, ttl)`; `time.Now()` is the explicit `now`. -/
def cleanup (now ttl : Nat) (m : CacheMap) : CacheMap :=
  fun k =>
    match m k with
    | some d => if isCacheStale now d.age ttl then none else some d
    | none => none

/-- `saveCacheData(res, c, xCacheValue)`: reads the whole body, closes it,
re-wraps it as a replayable stream, stores a clone of the headers together
with body/now/status under `res.Request.RequestURI`, then adds the
`X-Cache` tag to the live response.  Any read/close failure aborts before
the store.  Returns the mutated response and cache map. -/
def saveCacheData (now : Nat) (res : HttpResponse) (data : CacheMap)
    (xCacheValue : String) : Except String (HttpResponse × CacheMap) :=
  let key := res.request.requestURI
  match res.body.readAll with
  | Except.error e => Except.error e
  | Except.ok b =>
    match res.body.closeErr with
    | some e => Except.error e
    | none =>
      let res1 : HttpResponse := { res with body := nopCloser b }
      let data1 := mapStore data key
        { header := headerClone res1.header
          body := b
          age := now
          status := res1.status }
      let res2 : HttpResponse := { res1 with header := headerAdd res1.header "X-Cache" xCacheValue }
      Except.ok (res2, data1)

/-- The `rp.ModifyResponse` closure installed by `handleMissedCache`:
skips non-GET responses, otherwise runs `saveCacheData` and only logs its
error.  The third component is the `error` returned to the forwarder —
always `none` (nil). -/
def modifyResponseHook (now : Nat) (res : HttpResponse) (data : CacheMap) :
    HttpResponse × CacheMap × Option String :=
  if res.request.method ≠ "GET" then (res, data, none)
  else
    match saveCacheData now res data XCacheMiss with
    | Except.error _ => (res, data, none)
    | Except.ok (res2, data1) => (res2, data1, none)

/-- The parsed upstream target of `newReverseProxy`. -/
structure Target where
  scheme : String
  host : String

/-- The Director `d` in `newReverseProxy`: rewrites scheme and host and
deletes "X-Forwarded-For"; method and RequestURI are untouched. -/
def director (t : Target) (req : Request) : Request :=
  { req with
    scheme := t.scheme
    host := t.host
    header := headerDel req.header "X-Forwarded-For" }

/-- What the upstream server answers: status, headers, body stream. -/
structure UpstreamResp where
  status : Nat
  header : Header
  body : BodyStream

/-- What the client ends up receiving: status, headers, and the outcome of
copying the body. -/
structure ClientResponse where
  status : Nat
  header : Header
  body : Except String (List Nat)

/-- The response `httputil.ReverseProxy` writes when `ModifyResponse`
returns a non-nil error (`http.StatusBadGateway`). -/
def badGateway : ClientResponse :=
  { status := 502, header := emptyHeader, body := Except.ok [] }

/-- `rp.ServeHTTP(w, r)`: clone the request, run the Director, do the
upstream round trip (the transport sets `res.Request` to the outgoing
request), run the `ModifyResponse` hook if one is installed, then relay
status, headers and body to the client (or 502 on a hook error). -/
def serveHTTP (upstream : Request → UpstreamResp) (t : Target)
    (hookInstalled : Bool) (now : Nat) (req : Request) (data : CacheMap) :
    ClientResponse × CacheMap :=
  let outreq := director t req
  let u := upstream outreq
  let res : HttpResponse :=
    { request := outreq, status := u.status, header := u.header, body := u.body }
  let r :=
    if hookInstalled then modifyResponseHook now res data else (res, data, none)
  match r with
  | (_, data2, some _) => (badGateway, data2)
  | (res2, data2, none) =>
      ({ status := res2.status, header := res2.header, body := res2.body.readAll }, data2)

/-- `writeToResponseCacheHit(w, d)`: add every stored header value to the
(initially empty) response header, set `X-Cache: HIT`, write the stored
status and body. -/
def writeToResponseCacheHit (d : cacheData) : ClientResponse :=
  let h := copyHeader emptyHeader d.header
  let h1 := headerSet h "X-Cache" XCacheHit
  { status := d.status, header := h1, body := Except.ok d.body }

/-- The mutable state shared across requests: the cache map and whether
`handleMissedCache` has installed the capture hook on the shared proxy. -/
structure ProxyState where
  data : CacheMap
  hookInstalled : Bool

/-- Everything one request produces: the client response, the state after,
and whether the forwarder (`rp.ServeHTTP`) was invoked. -/
structure HandleResult where
  response : ClientResponse
  data : CacheMap
  hookInstalled : Bool
  forwarded : Bool

/-- The `http.HandleFunc("/", ...)` closure in `run`: on GET, look the
RequestURI up; if present and not stale, answer from the cache and stop;
otherwise install the capture hook (`handleMissedCache`) and fall through
to `rp.ServeHTTP`.  Non-GET requests go straight to `rp.ServeHTTP` with
whatever hook is currently installed. -/
def handle (upstream : Request → UpstreamResp) (t : Target) (ttl : Nat)
    (now : Nat) (st : ProxyState) (req : Request) : HandleResult :=
  if req.method = "GET" then
    match st.data req.requestURI with
    | some d =>
      if isCacheStale now d.age ttl = false then
        { response := writeToResponseCacheHit d
          data := st.data
          hookInstalled := st.hookInstalled
          forwarded := false }
      else
        let r := serveHTTP upstream t true now req st.data
        { response := r.1, data := r.2, hookInstalled := true, forwarded := true }
    | none =>
      let r := serveHTTP upstream t true now req st.data
      { response := r.1, data := r.2, hookInstalled := true, forwarded := true }
  else
    let r := serveHTTP upstream t st.hookInstalled now req st.data
    { response := r.1, data := r.2, hookInstalled := st.hookInstalled, forwarded := true }

/-! ### Shared helper lemmas -/

/-- A successful capture: `saveCacheData` re-wraps the body, stores the
entry under `res.Request.RequestURI`, and adds the tag to the live
headers. -/
theorem saveCacheData_ok (now : Nat) (res : HttpResponse) (data : CacheMap)
    (tag : String) (b : List Nat)
    (hr : res.body.readAll = Except.ok b) (hc : res.body.closeErr = none) :
    saveCacheData now res data tag = Except.ok
      ({ res with header := headerAdd res.header "X-Cache" tag, body := nopCloser b },
       mapStore data res.request.requestURI
         { header := res.header, body := b, age := now, status := res.status }) := by
  unfold saveCacheData
  rw [hr, hc]
  rfl

/-- A failed capture: `saveCacheData` returns the read or close error,
before the store. -/
theorem saveCacheData_err (now : Nat) (res : HttpResponse) (data : CacheMap)
    (tag : String)
    (h : (∃ e, res.body.readAll = Except.error e) ∨
         (∃ b e, res.body.readAll = Except.ok b ∧ res.body.closeErr = some e)) :
    ∃ e, saveCacheData now res data tag = Except.error e := by
  unfold saveCacheData
  rcases h with ⟨e, he⟩ | ⟨b, e, hb, hce⟩
  · exact ⟨e, by rw [he]⟩
  · exact ⟨e, by rw [hb, hce]⟩

/-- The capture hook on a GET response with a readable body: stores the
entry and tags the live response MISS, reporting no error. -/
theorem modifyResponseHook_get_ok (now : Nat) (res : HttpResponse)
    (data : CacheMap) (b : List Nat)
    (hm : res.request.method = "GET")
    (hr : res.body.readAll = Except.ok b) (hc : res.body.closeErr = none) :
    modifyResponseHook now res data =
      ({ res with header := headerAdd res.header "X-Cache" XCacheMiss, body := nopCloser b },
       mapStore data res.request.requestURI
         { header := res.header, body := b, age := now, status := res.status },
       none) := by
  unfold modifyResponseHook
  rw [saveCacheData_ok now res data XCacheMiss b hr hc]
  simp [hm]

/-- The forwarder with the capture hook installed, on a GET request whose
upstream body reads cleanly: the client gets the upstream status, the
upstream headers tagged MISS, and exactly the bytes read; the cache gains
the entry under the request's RequestURI. -/
theorem serveHTTP_hooked_get (upstream : Request → UpstreamResp) (t : Target)
    (now : Nat) (req : Request) (data : CacheMap) (b : List Nat)
    (hm : req.method = "GET")
    (hr : (upstream (director t req)).body.readAll = Except.ok b)
    (hc : (upstream (director t req)).body.closeErr = none) :
    serveHTTP upstream t true now req data =
      ({ status := (upstream (director t req)).status
         header := headerAdd (upstream (director t req)).header "X-Cache" XCacheMiss
         body := Except.ok b },
       mapStore data req.requestURI
         { header := (upstream (director t req)).header
           body := b
           age := now
           status := (upstream (director t req)).status }) := by
  simp only [serveHTTP]
  rw [if_pos trivial]
  rw [modifyResponseHook_get_ok now
      { request := director t req
        status := (upstream (director t req)).status
        header := (upstream (director t req)).header
        body := (upstream (director t req)).body }
      data b hm hr hc]
  rfl

/-- The capture hook on a non-GET response: passes through, stores
nothing, reports no error. -/
theorem modifyResponseHook_nonget (now : Nat) (res : HttpResponse)
    (data : CacheMap) (hm : ¬ res.request.method = "GET") :
    modifyResponseHook now res data = (res, data, none) := by
  unfold modifyResponseHook
  rw [if_pos hm]

/-- The forwarder on a non-GET request: regardless of whether the capture
hook is installed, the upstream response is relayed untouched and the
cache map is unchanged. -/
theorem serveHTTP_nonget (upstream : Request → UpstreamResp) (t : Target)
    (hook : Bool) (now : Nat) (req : Request) (data : CacheMap)
    (hm : ¬ req.method = "GET") :
    serveHTTP upstream t hook now req data =
      ({ status := (upstream (director t req)).status
         header := (upstream (director t req)).header
         body := (upstream (director t req)).body.readAll }, data) := by
  cases hook with
  | false => rfl
  | true =>
    simp only [serveHTTP]
    rw [if_pos trivial]
    rw [modifyResponseHook_nonget now
        { request := director t req
          status := (upstream (director t req)).status
          header := (upstream (director t req)).header
          body := (upstream (director t req)).body } data hm]

/-! ### Concrete sample values used by the witnesses -/

def sampleHeader : Header := fun _ => []

def sampleData : cacheData :=
  { header := sampleHeader, body := [1, 2], age := 0, status := 200 }

def sampleData2 : cacheData :=
  { header := sampleHeader, body := [9], age := 4, status := 404 }

def sampleMap : CacheMap :=
  fun q => if q = "/x" then some sampleData else none

def sampleRequest : Request :=
  { method := "GET", requestURI := "/x", scheme := "http", host := "client"
    header := emptyHeader }

def samplePost : Request :=
  { method := "POST", requestURI := "/x", scheme := "http", host := "client"
    header := emptyHeader }

def sampleTarget : Target := { scheme := "https", host := "dummyjson.com" }

def sampleUpstream : Request → UpstreamResp :=
  fun _ => { status := 200, header := emptyHeader, body := nopCloser [7, 8] }

def failingBody : BodyStream :=
  { readAll := Except.error "read failed", closeErr := none }

def failingResponse : HttpResponse :=
  { request := sampleRequest, status := 200, header := emptyHeader, body := failingBody }

def okResponse : HttpResponse :=
  { request := sampleRequest, status := 200, header := emptyHeader, body := nopCloser [7, 8] }

/-! ### Claims -/

/-- C4 counterexample: at the boundary instant `now = createdAt + ttl`
(here `now = 5`, `createdAt = 0`, `ttl = 5`) the code treats the entry as
NOT stale (`isCacheStale` is `false`), yet `now < createdAt + ttl` fails —
so "fresh exactly when `now < createdAt + ttl`" is false on the code. -/
theorem isCacheStale_boundary_cex :
    ¬ (isCacheStale 5 0 5 = false ↔ 5 < 0 + 5) := by
  decide

/-- C4 (amended): an entry is treated as fresh exactly when
`now ≤ createdAt + ttl` and as stale exactly when `createdAt + ttl < now`;
in particular, at the instant `now = createdAt + ttl` the entry is still
fresh. -/
theorem isCacheStale_fresh_iff (now a ttl : Nat) :
    (isCacheStale now a ttl = false ↔ now ≤ a + ttl) ∧
    (isCacheStale now a ttl = true ↔ a + ttl < now) := by
  constructor
  · simp [isCacheStale, Nat.not_lt]
  · simp [isCacheStale]

/-- C5: one `cleanup` pass at time `now` deletes every entry with
`createdAt + ttl < now` and keeps, unchanged, every entry with
`now ≤ createdAt + ttl`; keys that were absent stay absent, so no entry
stale at the start of the pass survives it. -/
theorem cleanup_removes_exactly_stale (now ttl : Nat) (m : CacheMap)
    (k : String) :
    (∀ d, m k = some d → d.age + ttl < now → cleanup now ttl m k = none) ∧
    (∀ d, m k = some d → now ≤ d.age + ttl → cleanup now ttl m k = some d) ∧
    (m k = none → cleanup now ttl m k = none) := by
  refine ⟨fun d hd hs => ?_, fun d hd hf => ?_, fun hn => ?_⟩
  · unfold cleanup
    rw [hd]
    simp [isCacheStale, hs]
  · unfold cleanup
    rw [hd]
    simp [isCacheStale]
    omega
  · unfold cleanup
    rw [hn]

/-- C5 witness: on a one-entry map (`createdAt = 0`, `ttl = 5`), the sweep
at `now = 6` deletes the entry and the sweep at `now = 3` keeps it. -/
theorem cleanup_removes_exactly_stale_witness :
    cleanup 6 5 sampleMap "/x" = none ∧
    cleanup 3 5 sampleMap "/x" = some sampleData :=
  ⟨(cleanup_removes_exactly_stale 6 5 sampleMap "/x").1 sampleData rfl (by decide),
   (cleanup_removes_exactly_stale 3 5 sampleMap "/x").2.1 sampleData rfl (by decide)⟩

/-- C8: the store operation used by `saveCacheData` (Go map assignment)
puts exactly the given entry at the key — inserting when absent and
unconditionally replacing the whole entry when present, with no field
merge — and leaves every other key untouched, so each key holds at most
the one most recently stored entry. -/
theorem mapStore_overwrites (m : CacheMap) (k : String) (v : cacheData) :
    mapStore m k v k = some v ∧ ∀ q, q ≠ k → mapStore m k v q = m q := by
  constructor
  · unfold mapStore
    rw [if_pos rfl]
  · intro q hq
    unfold mapStore
    rw [if_neg hq]

/-- C8 witness: overwriting the existing entry at "/x" yields exactly the
new entry there and leaves "/y" untouched. -/
theorem mapStore_overwrites_witness :
    mapStore sampleMap "/x" sampleData2 "/x" = some sampleData2 ∧
    mapStore sampleMap "/x" sampleData2 "/y" = sampleMap "/y" :=
  ⟨(mapStore_overwrites sampleMap "/x" sampleData2).1,
   (mapStore_overwrites sampleMap "/x" sampleData2).2 "/y" (by decide)⟩

/-- C6: when a capture fails — the body cannot be fully read, or closing
it fails — the cache map is left completely unchanged (no partial or
empty entry is inserted) and the hook still reports no error (`none`) to
the forwarder, so the client request does not fail. -/
theorem capture_failure_leaves_cache_unchanged (now : Nat)
    (res : HttpResponse) (data : CacheMap)
    (h : (∃ e, res.body.readAll = Except.error e) ∨
         (∃ b e, res.body.readAll = Except.ok b ∧ res.body.closeErr = some e)) :
    modifyResponseHook now res data = (res, data, none) := by
  by_cases hm : res.request.method = "GET"
  · obtain ⟨e, he⟩ := saveCacheData_err now res data XCacheMiss h
    unfold modifyResponseHook
    rw [if_neg (not_not_intro hm), he]
  · exact modifyResponseHook_nonget now res data hm

/-- C6 witness: on a GET response whose body read fails, the hook returns
the untouched cache map and no error. -/
theorem capture_failure_witness :
    modifyResponseHook 0 failingResponse sampleMap =
      (failingResponse, sampleMap, none) :=
  capture_failure_leaves_cache_unchanged 0 failingResponse sampleMap
    (Or.inl ⟨"read failed", rfl⟩)

/-- C9: on a successful capture the whole body `b` is read, the stored
entry holds exactly those bytes, and the response body is replaced by
`nopCloser b`, a replayable stream that yields exactly the same bytes to
the downstream client. -/
theorem capture_stores_exact_bytes_and_replays (now : Nat)
    (res : HttpResponse) (data : CacheMap) (tag : String) (b : List Nat)
    (hr : res.body.readAll = Except.ok b) (hc : res.body.closeErr = none) :
    saveCacheData now res data tag = Except.ok
      ({ res with header := headerAdd res.header "X-Cache" tag, body := nopCloser b },
       mapStore data res.request.requestURI
         { header := res.header, body := b, age := now, status := res.status }) ∧
    (nopCloser b).readAll = Except.ok b :=
  ⟨saveCacheData_ok now res data tag b hr hc, rfl⟩

/-- C9 witness: capturing a concrete response with body `[7, 8]` stores
exactly `[7, 8]` and re-wraps the body as a stream yielding `[7, 8]`. -/
theorem capture_stores_exact_bytes_witness :
    saveCacheData 3 okResponse sampleMap "MISS" = Except.ok
      ({ okResponse with
          header := headerAdd okResponse.header "X-Cache" "MISS"
          body := nopCloser [7, 8] },
       mapStore sampleMap "/x"
         { header := okResponse.header, body := [7, 8], age := 3, status := 200 }) ∧
    (nopCloser [7, 8]).readAll = Except.ok [7, 8] :=
  capture_stores_exact_bytes_and_replays 3 okResponse sampleMap "MISS" [7, 8] rfl rfl

/-- C10: the headers are cloned into the entry before `X-Cache: MISS` is
added to the live response, so if the upstream response carried no
`X-Cache` header the cached snapshot carries none either; and a cache-hit
response carries exactly the single `X-Cache` value HIT (Set, not Add,
after copying the cached headers). -/
theorem snapshot_lacks_tag_and_hit_sets_it (now : Nat) (res : HttpResponse)
    (data : CacheMap) (tag : String) (b : List Nat) (d : cacheData)
    (hr : res.body.readAll = Except.ok b) (hc : res.body.closeErr = none)
    (hx : res.header "X-Cache" = []) :
    (∃ p, saveCacheData now res data tag = Except.ok p ∧
        ∃ e, p.2 res.request.requestURI = some e ∧ e.header "X-Cache" = []) ∧
    (writeToResponseCacheHit d).header "X-Cache" = [XCacheHit] := by
  constructor
  · refine ⟨_, saveCacheData_ok now res data tag b hr hc, ?_⟩
    refine ⟨{ header := res.header, body := b, age := now, status := res.status }, ?_, hx⟩
    unfold mapStore
    dsimp only
    rw [if_pos rfl]
  · rfl

/-- C10 witness: capturing a response with empty headers yields a snapshot
with no `X-Cache` value, and serving `sampleData` as a hit yields exactly
`X-Cache: HIT`. -/
theorem snapshot_lacks_tag_witness :
    (∃ p, saveCacheData 3 okResponse sampleMap "MISS" = Except.ok p ∧
        ∃ e, p.2 okResponse.request.requestURI = some e ∧ e.header "X-Cache" = []) ∧
    (writeToResponseCacheHit sampleData).header "X-Cache" = [XCacheHit] :=
  snapshot_lacks_tag_and_hit_sets_it 3 okResponse sampleMap "MISS" [7, 8]
    sampleData rfl rfl rfl

/-- C7: a request whose method is not GET bypasses the cache entirely:
the handler forwards it, the cache map after the request is identical to
the cache map before it (whatever entry may exist for the same
RequestURI), and the hook-installation state is unchanged. -/
theorem nonget_bypasses_cache (upstream : Request → UpstreamResp)
    (t : Target) (ttl now : Nat) (st : ProxyState) (req : Request)
    (hm : ¬ req.method = "GET") :
    (handle upstream t ttl now st req).data = st.data ∧
    (handle upstream t ttl now st req).forwarded = true ∧
    (handle upstream t ttl now st req).hookInstalled = st.hookInstalled := by
  unfold handle
  rw [if_neg hm]
  rw [serveHTTP_nonget upstream t st.hookInstalled now req st.data hm]
  exact ⟨rfl, rfl, rfl⟩

/-- C7 witness: a POST for "/x" with a cached entry present and the hook
installed leaves the cache map untouched and is forwarded. -/
theorem nonget_bypasses_cache_witness :
    (handle sampleUpstream sampleTarget 5 1
        { data := sampleMap, hookInstalled := true } samplePost).data = sampleMap ∧
    (handle sampleUpstream sampleTarget 5 1
        { data := sampleMap, hookInstalled := true } samplePost).forwarded = true ∧
    (handle sampleUpstream sampleTarget 5 1
        { data := sampleMap, hookInstalled := true } samplePost).hookInstalled = true :=
  nonget_bypasses_cache sampleUpstream sampleTarget 5 1
    { data := sampleMap, hookInstalled := true } samplePost (by decide)

/-- C2: the Director leaves the RequestURI unchanged, so the key under
which the capture hook stores (`res.Request.RequestURI`) is the very key
under which the handler looks up (`r.RequestURI`): after a forwarded GET
whose capture succeeds, the new entry sits exactly at `req.requestURI`
and every other key is untouched. -/
theorem store_key_equals_lookup_key (upstream : Request → UpstreamResp)
    (t : Target) (ttl now : Nat) (st : ProxyState) (req : Request)
    (b : List Nat)
    (hm : req.method = "GET")
    (hmiss : st.data req.requestURI = none)
    (hr : (upstream (director t req)).body.readAll = Except.ok b)
    (hc : (upstream (director t req)).body.closeErr = none) :
    (director t req).requestURI = req.requestURI ∧
    (handle upstream t ttl now st req).data req.requestURI =
      some { header := (upstream (director t req)).header
             body := b
             age := now
             status := (upstream (director t req)).status } ∧
    ∀ q, ¬ q = req.requestURI →
      (handle upstream t ttl now st req).data q = st.data q := by
  have hh := serveHTTP_hooked_get upstream t now req st.data b hm hr hc
  unfold handle
  rw [if_pos hm]
  simp only [hmiss, hh]
  refine ⟨rfl, ?_, ?_⟩
  · unfold mapStore
    rw [if_pos rfl]
  · intro q hq
    unfold mapStore
    rw [if_neg hq]

/-- C2 witness: a GET for "/x" on an empty cache stores the captured entry
at "/x" and nowhere else. -/
theorem store_key_equals_lookup_key_witness :
    (director sampleTarget sampleRequest).requestURI = sampleRequest.requestURI ∧
    (handle sampleUpstream sampleTarget 5 1
        { data := emptyCacheMap, hookInstalled := false } sampleRequest).data
        sampleRequest.requestURI =
      some { header := (sampleUpstream (director sampleTarget sampleRequest)).header
             body := [7, 8]
             age := 1
             status := (sampleUpstream (director sampleTarget sampleRequest)).status } ∧
    ∀ q, ¬ q = sampleRequest.requestURI →
      (handle sampleUpstream sampleTarget 5 1
          { data := emptyCacheMap, hookInstalled := false } sampleRequest).data q =
        emptyCacheMap q :=
  store_key_equals_lookup_key sampleUpstream sampleTarget 5 1
    { data := emptyCacheMap, hookInstalled := false } sampleRequest [7, 8]
    rfl rfl rfl rfl

/-- C3: on a GET, if the lookup finds an entry that is not stale, the
handler answers with exactly the stored status, the stored headers
(each key's values verbatim, in order), the stored body, and the HIT tag,
leaves all state unchanged and never invokes the forwarder; if the lookup
finds nothing, or finds a stale entry, the handler installs the capture
hook and delegates to the forwarder with the hook active. -/
theorem get_dispatch (upstream : Request → UpstreamResp) (t : Target)
    (ttl now : Nat) (st : ProxyState) (req : Request)
    (hm : req.method = "GET") :
    (∀ d, st.data req.requestURI = some d →
        isCacheStale now d.age ttl = false →
        handle upstream t ttl now st req =
          { response := writeToResponseCacheHit d
            data := st.data
            hookInstalled := st.hookInstalled
            forwarded := false } ∧
        (writeToResponseCacheHit d).status = d.status ∧
        (writeToResponseCacheHit d).body = Except.ok d.body ∧
        (writeToResponseCacheHit d).header "X-Cache" = [XCacheHit] ∧
        ∀ k, ¬ k = "X-Cache" → (writeToResponseCacheHit d).header k = d.header k) ∧
    ((st.data req.requestURI = none ∨
        ∃ d, st.data req.requestURI = some d ∧ isCacheStale now d.age ttl = true) →
      handle upstream t ttl now st req =
        { response := (serveHTTP upstream t true now req st.data).1
          data := (serveHTTP upstream t true now req st.data).2
          hookInstalled := true
          forwarded := true }) := by
  constructor
  · intro d hd hs
    refine ⟨?_, rfl, rfl, rfl, ?_⟩
    · unfold handle
      rw [if_pos hm]
      simp only [hd]
      rw [if_pos hs]
    · intro k hk
      show (if k = "X-Cache" then [XCacheHit]
            else copyHeader emptyHeader d.header k) = d.header k
      rw [if_neg hk]
      exact List.nil_append _
  · intro h
    unfold handle
    rw [if_pos hm]
    rcases h with hn | ⟨d, hd, hs⟩
    · rw [hn]
    · simp only [hd]
      rw [if_neg (fun hf => Bool.noConfusion (hs.symm.trans hf))]

/-- C3 witness: with `sampleData` (createdAt 0) cached at "/x" and
`ttl = 5`, the GET at `now = 1` is answered from the cache without
forwarding, and the GET at `now = 9` is delegated to the forwarder with
the hook installed. -/
theorem get_dispatch_witness :
    handle sampleUpstream sampleTarget 5 1
        { data := sampleMap, hookInstalled := false } sampleRequest =
      { response := writeToResponseCacheHit sampleData
        data := sampleMap
        hookInstalled := false
        forwarded := false } ∧
    handle sampleUpstream sampleTarget 5 9
        { data := sampleMap, hookInstalled := false } sampleRequest =
      { response := (serveHTTP sampleUpstream sampleTarget true 9 sampleRequest sampleMap).1
        data := (serveHTTP sampleUpstream sampleTarget true 9 sampleRequest sampleMap).2
        hookInstalled := true
        forwarded := true } :=
  ⟨((get_dispatch sampleUpstream sampleTarget 5 1
      { data := sampleMap, hookInstalled := false } sampleRequest rfl).1
      sampleData rfl (by decide)).1,
   (get_dispatch sampleUpstream sampleTarget 5 9
      { data := sampleMap, hookInstalled := false } sampleRequest rfl).2
      (Or.inr ⟨sampleData, rfl, by decide⟩)⟩

/-- C1: a GET whose key was filled by a prior GET (a forwarded GET on an
absent or stale entry whose capture succeeded), re-issued while the entry
is still within TTL, is answered from the cache: not forwarded, tagged
`X-Cache: HIT`, and its status, body, and every header other than
`X-Cache` are identical to what the first request's client received. -/
theorem second_get_within_ttl_hits (upstream : Request → UpstreamResp)
    (t : Target) (ttl t0 t1 : Nat) (st : ProxyState) (req : Request)
    (b : List Nat) (R1 R2 : HandleResult)
    (hm : req.method = "GET")
    (hfill : st.data req.requestURI = none ∨
       ∃ d, st.data req.requestURI = some d ∧ isCacheStale t0 d.age ttl = true)
    (hr : (upstream (director t req)).body.readAll = Except.ok b)
    (hc : (upstream (director t req)).body.closeErr = none)
    (hfresh : t1 < t0 + ttl)
    (hR1 : R1 = handle upstream t ttl t0 st req)
    (hR2 : R2 = handle upstream t ttl t1
      { data := R1.data, hookInstalled := R1.hookInstalled } req) :
    R2.forwarded = false ∧
    R2.response.header "X-Cache" = [XCacheHit] ∧
    R2.response.status = R1.response.status ∧
    R2.response.body = R1.response.body ∧
    ∀ k, ¬ k = "X-Cache" → R2.response.header k = R1.response.header k := by
  subst hR1 hR2
  have hh := serveHTTP_hooked_get upstream t t0 req st.data b hm hr hc
  have h1 : handle upstream t ttl t0 st req =
      { response :=
          { status := (upstream (director t req)).status
            header := headerAdd (upstream (director t req)).header "X-Cache" XCacheMiss
            body := Except.ok b }
        data := mapStore st.data req.requestURI
          { header := (upstream (director t req)).header
            body := b
            age := t0
            status := (upstream (director t req)).status }
        hookInstalled := true
        forwarded := true } := by
    unfold handle
    rw [if_pos hm]
    rcases hfill with hn | ⟨d, hd, hs⟩
    · rw [hn, hh]
    · simp only [hd]
      rw [if_neg (fun hf => Bool.noConfusion (hs.symm.trans hf)), hh]
  rw [h1]
  have hk0 : mapStore st.data req.requestURI
      { header := (upstream (director t req)).header
        body := b
        age := t0
        status := (upstream (director t req)).status } req.requestURI =
      some { header := (upstream (director t req)).header
             body := b
             age := t0
             status := (upstream (director t req)).status } := by
    unfold mapStore
    rw [if_pos rfl]
  have hfr : isCacheStale t1 t0 ttl = false := by
    simp only [isCacheStale, decide_eq_false_iff_not, Nat.not_lt]
    omega
  have h2 : handle upstream t ttl t1
      { data := mapStore st.data req.requestURI
          { header := (upstream (director t req)).header
            body := b
            age := t0
            status := (upstream (director t req)).status }
        hookInstalled := true } req =
      { response := writeToResponseCacheHit
          { header := (upstream (director t req)).header
            body := b
            age := t0
            status := (upstream (director t req)).status }
        data := mapStore st.data req.requestURI
          { header := (upstream (director t req)).header
            body := b
            age := t0
            status := (upstream (director t req)).status }
        hookInstalled := true
        forwarded := false } := by
    unfold handle
    rw [if_pos hm]
    simp only [hk0]
    rw [if_pos hfr]
  rw [h2]
  refine ⟨rfl, rfl, rfl, rfl, ?_⟩
  intro k hk
  show (if k = "X-Cache" then [XCacheHit]
        else copyHeader emptyHeader (upstream (director t req)).header k) =
      headerAdd (upstream (director t req)).header "X-Cache" XCacheMiss k
  unfold headerAdd
  rw [if_neg hk, if_neg hk]
  exact List.nil_append _

/-- C1 witness: on an empty cache, a GET for "/x" at `t0 = 0` fills the
entry; the same GET at `t1 = 2` with `ttl = 5` is served from the cache
unforwarded, tagged HIT, with the same status, body, and headers other
than `X-Cache`. -/
theorem second_get_within_ttl_hits_witness :
    (handle sampleUpstream sampleTarget 5 2
        { data := (handle sampleUpstream sampleTarget 5 0
            { data := emptyCacheMap, hookInstalled := false } sampleRequest).data
          hookInstalled := (handle sampleUpstream sampleTarget 5 0
            { data := emptyCacheMap, hookInstalled := false } sampleRequest).hookInstalled }
        sampleRequest).forwarded = false ∧
    (handle sampleUpstream sampleTarget 5 2
        { data := (handle sampleUpstream sampleTarget 5 0
            { data := emptyCacheMap, hookInstalled := false } sampleRequest).data
          hookInstalled := (handle sampleUpstream sampleTarget 5 0
            { data := emptyCacheMap, hookInstalled := false } sampleRequest).hookInstalled }
        sampleRequest).response.header "X-Cache" = [XCacheHit] ∧
    (handle sampleUpstream sampleTarget 5 2
        { data := (handle sampleUpstream sampleTarget 5 0
            { data := emptyCacheMap, hookInstalled := false } sampleRequest).data
          hookInstalled := (handle sampleUpstream sampleTarget 5 0
            { data := emptyCacheMap, hookInstalled := false } sampleRequest).hookInstalled }
        sampleRequest).response.status =
      (handle sampleUpstream sampleTarget 5 0
        { data := emptyCacheMap, hookInstalled := false } sampleRequest).response.status ∧
    (handle sampleUpstream sampleTarget 5 2
        { data := (handle sampleUpstream sampleTarget 5 0
            { data := emptyCacheMap, hookInstalled := false } sampleRequest).data
          hookInstalled := (handle sampleUpstream sampleTarget 5 0
            { data := emptyCacheMap, hookInstalled := false } sampleRequest).hookInstalled }
        sampleRequest).response.body =
      (handle sampleUpstream sampleTarget 5 0
        { data := emptyCacheMap, hookInstalled := false } sampleRequest).response.body ∧
    ∀ k, ¬ k = "X-Cache" →
      (handle sampleUpstream sampleTarget 5 2
          { data := (handle sampleUpstream sampleTarget 5 0
              { data := emptyCacheMap, hookInstalled := false } sampleRequest).data
            hookInstalled := (handle sampleUpstream sampleTarget 5 0
              { data := emptyCacheMap, hookInstalled := false } sampleRequest).hookInstalled }
          sampleRequest).response.header k =
        (handle sampleUpstream sampleTarget 5 0
          { data := emptyCacheMap, hookInstalled := false } sampleRequest).response.header k :=
  second_get_within_ttl_hits sampleUpstream sampleTarget 5 0 2
    { data := emptyCacheMap, hookInstalled := false } sampleRequest [7, 8]
    (handle sampleUpstream sampleTarget 5 0
      { data := emptyCacheMap, hookInstalled := false } sampleRequest)
    (handle sampleUpstream sampleTarget 5 2
      { data := (handle sampleUpstream sampleTarget 5 0
          { data := emptyCacheMap, hookInstalled := false } sampleRequest).data
        hookInstalled := (handle sampleUpstream sampleTarget 5 0
          { data := emptyCacheMap, hookInstalled := false } sampleRequest).hookInstalled }
      sampleRequest)
    rfl (Or.inl rfl) rfl rfl (by decide) rfl rfl

end CacheProxy
